import Mathlib

/-!
Shallow embedding of the WingsCAD geometry core (`core/naca4.py`, `core/naca5.py`,
`core/naca6.py`, `core/naca7.py`, `core/naca8.py`).

Numbers are modelled by exact rationals.  The transcendental routines the Python
code takes from `numpy` / `math` (`sqrt`, `sin`, `cos`, `arctan`, `arcsin`) and the
constant `pi` are abstracted into a `NumOps` record: every definition is
parametric in the kernel, and theorems quantify over it, adding only hypotheses
that the real functions satisfy (e.g. `sqrt` maps positives to positives).
Python exceptions are modelled by `Except Err`.
-/

namespace WingsCAD

/-- Abstract numeric kernel standing in for the float routines used by the code. -/
structure NumOps where
  sqrt : ℚ → ℚ
  sin : ℚ → ℚ
  cos : ℚ → ℚ
  atan : ℚ → ℚ
  asin : ℚ → ℚ
  pi : ℚ

/-- Error taxonomy.  `invalidCodeFormat` and `invalidParameter` are the parsers'
`ValueError`s, `notSupported` is the `NotImplementedError` for reflex 5-digit
camber, `domainError` is the `ValueError` ("math domain error") raised by
`math.sqrt` / `math.asin` outside their domain, and `zeroDivision` is Python's
`ZeroDivisionError` for float division by zero. -/
inductive Err where
  | invalidCodeFormat
  | invalidParameter
  | notSupported
  | domainError
  | zeroDivision
  deriving DecidableEq

instance {ε α : Type} [DecidableEq ε] [DecidableEq α] : DecidableEq (Except ε α) := fun x y =>
  match x, y with
  | .error a, .error b =>
      if h : a = b then .isTrue (by rw [h]) else .isFalse (by intro hc; cases hc; exact h rfl)
  | .error _, .ok _ => .isFalse (by intro hc; cases hc)
  | .ok _, .error _ => .isFalse (by intro hc; cases hc)
  | .ok a, .ok b =>
      if h : a = b then .isTrue (by rw [h]) else .isFalse (by intro hc; cases hc; exact h rfl)

/-- The ASCII whitespace characters stripped by Python's `str.strip()`
(we restrict the model to ASCII inputs). -/
def isPySpace (c : Char) : Bool :=
  c == ' ' || c == '\t' || c == '\n' || c == '\r' || c == '\x0b' || c == '\x0c'

/-- Python `str.strip()`: drop leading and trailing whitespace. -/
def pstrip (l : List Char) : List Char :=
  ((l.dropWhile isPySpace).reverse.dropWhile isPySpace).reverse

/-- Numeric value of an ASCII digit character. -/
def digitVal (c : Char) : ℕ := c.toNat - 48

/-- Parameter record for a NACA 4-digit code (`NACA4Params` in `naca4.py`). -/
structure NACA4Params where
  code : List Char
  m : ℚ
  p : ℚ
  t : ℚ
  chord : ℚ
  deriving DecidableEq

/-- Decode an already-stripped 4-digit code (`parse_naca4` after its `strip`). -/
def naca4Decode (s : List Char) (chord : ℚ) : Except Err NACA4Params :=
  if s.length = 4 ∧ s.all Char.isDigit = true then
    .ok { code := s
          m := (digitVal (s.getD 0 ' ') : ℚ) / 100
          p := (digitVal (s.getD 1 ' ') : ℚ) / 10
          t := ((10 * digitVal (s.getD 2 ' ') + digitVal (s.getD 3 ' ') : ℕ) : ℚ) / 100
          chord := chord }
  else .error .invalidCodeFormat

/-- `parse_naca4` from `naca4.py`: strip, require exactly 4 digits, decode
digit 1 into m/100, digit 2 into p/10, digits 3-4 into t/100. -/
def parse_naca4 (code : List Char) (chord : ℚ) : Except Err NACA4Params :=
  naca4Decode (pstrip code) chord

/-- Parameter record for a NACA 5-digit code (`NACA5Params` in `naca5.py`). -/
structure NACA5Params where
  code : List Char
  L : ℕ
  P : ℕ
  Q : ℕ
  t : ℚ
  chord : ℚ
  deriving DecidableEq

/-- Decode an already-stripped 5-digit code (`parse_naca5` after its `strip`). -/
def naca5Decode (s : List Char) (chord : ℚ) : Except Err NACA5Params :=
  if s.length = 5 ∧ s.all Char.isDigit = true then
    if digitVal (s.getD 2 ' ') = 0 ∨ digitVal (s.getD 2 ' ') = 1 then
      .ok { code := s
            L := digitVal (s.getD 0 ' ')
            P := digitVal (s.getD 1 ' ')
            Q := digitVal (s.getD 2 ' ')
            t := ((10 * digitVal (s.getD 3 ' ') + digitVal (s.getD 4 ' ') : ℕ) : ℚ) / 100
            chord := chord }
    else .error .invalidParameter
  else .error .invalidCodeFormat

/-- `parse_naca5` from `naca5.py`. -/
def parse_naca5 (code : List Char) (chord : ℚ) : Except Err NACA5Params :=
  naca5Decode (pstrip code) chord

/-- Parameter record for the simplified NACA 6-series (`NACA6Params` in `naca6.py`). -/
structure NACA6Params where
  code : List Char
  pos_min_pressure : ℕ
  design_cl : ℚ
  thickness : ℚ
  chord : ℚ
  deriving DecidableEq

/-- Decode an already-stripped 6-series code (`parse_naca6` after its `strip`).
The source checks length 6, a leading `6` and a dash at index 2, then runs
`int()` on positions 1, 3 and 4-5, which raises `ValueError` on non-digits. -/
def naca6Decode (s : List Char) (chord : ℚ) : Except Err NACA6Params :=
  if s.length = 6 ∧ s.getD 0 ' ' = '6' ∧ s.getD 2 ' ' = '-' then
    if (s.getD 1 ' ').isDigit ∧ (s.getD 3 ' ').isDigit
        ∧ (s.getD 4 ' ').isDigit ∧ (s.getD 5 ' ').isDigit then
      .ok { code := s
            pos_min_pressure := digitVal (s.getD 1 ' ')
            design_cl := (digitVal (s.getD 3 ' ') : ℚ) / 10
            thickness := ((10 * digitVal (s.getD 4 ' ') + digitVal (s.getD 5 ' ') : ℕ) : ℚ) / 100
            chord := chord }
    else .error .invalidCodeFormat
  else .error .invalidCodeFormat

/-- `parse_naca6` from `naca6.py`. -/
def parse_naca6 (code : List Char) (chord : ℚ) : Except Err NACA6Params :=
  naca6Decode (pstrip code) chord

/-- Parameter record for the NACA 7-series placeholder (`NACA7Params` in `naca7.py`). -/
structure NACA7Params where
  code : List Char
  base4 : List Char
  chord : ℚ
  deriving DecidableEq

/-- Decode an already-stripped 7-series code (`parse_naca7` after its `strip`):
at least 4 digit characters, first one `7`, and the rest exactly 4 long. -/
def naca7Decode (s : List Char) (chord : ℚ) : Except Err NACA7Params :=
  if s.length < 4 ∨ ¬ s.all Char.isDigit = true then .error .invalidCodeFormat
  else if ¬ s.getD 0 ' ' = '7' then .error .invalidCodeFormat
  else if ¬ (s.drop 1).length = 4 then .error .invalidCodeFormat
  else .ok { code := s, base4 := s.drop 1, chord := chord }

/-- `parse_naca7` from `naca7.py`. -/
def parse_naca7 (code : List Char) (chord : ℚ) : Except Err NACA7Params :=
  naca7Decode (pstrip code) chord

/-- Parameter record for the NACA 8-series placeholder (`NACA8Params` in `naca8.py`). -/
structure NACA8Params where
  code : List Char
  base4 : List Char
  chord : ℚ
  deriving DecidableEq

/-- Decode an already-stripped 8-series code (`parse_naca8` after its `strip`). -/
def naca8Decode (s : List Char) (chord : ℚ) : Except Err NACA8Params :=
  if s.length < 4 ∨ ¬ s.all Char.isDigit = true then .error .invalidCodeFormat
  else if ¬ s.getD 0 ' ' = '8' then .error .invalidCodeFormat
  else if ¬ (s.drop 1).length = 4 then .error .invalidCodeFormat
  else .ok { code := s, base4 := s.drop 1, chord := chord }

/-- `parse_naca8` from `naca8.py`. -/
def parse_naca8 (code : List Char) (chord : ℚ) : Except Err NACA8Params :=
  naca8Decode (pstrip code) chord

/-- The spacing argument value `"cosine"`. -/
def cosStr : List Char := ['c', 'o', 's', 'i', 'n', 'e']

/-- The spacing argument value `"linear"`. -/
def linStr : List Char := ['l', 'i', 'n', 'e', 'a', 'r']

/-- `np.linspace(a, b, n)`: `n` evenly spaced points from `a` to `b` inclusive.
For `n = 1` numpy returns `[a]`, which the rational convention `q / 0 = 0`
reproduces; for `n = 0` the list is empty. -/
def linspace (a b : ℚ) (n : ℕ) : List ℚ :=
  (List.range n).map fun i : ℕ => a + (b - a) * (i : ℚ) / ((n : ℚ) - 1)

/-- The chordwise sample distribution: cosine spacing `x = (1 - cos beta) / 2`
with `beta = linspace 0 pi n`, linear spacing `linspace 0 1 n`, and a
`ValueError` for any other spacing string.  This block is repeated verbatim in
`naca4.py`, `naca5.py` and `naca6.py`. -/
def sampleX (ops : NumOps) (n : ℕ) (sp : List Char) : Except Err (List ℚ) :=
  if sp = cosStr then .ok ((linspace 0 ops.pi n).map fun b => (1 - ops.cos b) / 2)
  else if sp = linStr then .ok (linspace 0 1 n)
  else .error .invalidParameter

/-- The bracketed polynomial of the standard NACA half-thickness formula:
`0.2969 sqrt x - 0.1260 x - 0.3516 x^2 + 0.2843 x^3 - 0.1015 x^4`. -/
def thicknessShape (ops : NumOps) (xi : ℚ) : ℚ :=
  2969 / 10000 * ops.sqrt xi - 1260 / 10000 * xi - 3516 / 10000 * xi ^ 2
    + 2843 / 10000 * xi ^ 3 - 1015 / 10000 * xi ^ 4

/-- The half-thickness distribution `yt = 5 t (0.2969 sqrt x - ...)`, shared by
every family. -/
def thicknessDist (ops : NumOps) (t : ℚ) (xs : List ℚ) : List ℚ :=
  xs.map fun xi => 5 * t * thicknessShape ops xi

/-- Three-list pointwise combination (the sources act elementwise on equal-length
numpy arrays). -/
def zipWith3 (f : ℚ → ℚ → ℚ → ℚ) : List ℚ → List ℚ → List ℚ → List ℚ
  | a :: as, b :: bs, c :: cs => f a b c :: zipWith3 f as bs cs
  | _, _, _ => []

/-- Upper-surface x: `xu = x - yt * sin(theta)`. -/
def surfaceUpperX (ops : NumOps) (xs yts ths : List ℚ) : List ℚ :=
  zipWith3 (fun xi yti thi => xi - yti * ops.sin thi) xs yts ths

/-- Upper-surface y: `yu = yc + yt * cos(theta)`. -/
def surfaceUpperY (ops : NumOps) (ycs yts ths : List ℚ) : List ℚ :=
  zipWith3 (fun yci yti thi => yci + yti * ops.cos thi) ycs yts ths

/-- Lower-surface x: `xl = x + yt * sin(theta)`. -/
def surfaceLowerX (ops : NumOps) (xs yts ths : List ℚ) : List ℚ :=
  zipWith3 (fun xi yti thi => xi + yti * ops.sin thi) xs yts ths

/-- Lower-surface y: `yl = yc - yt * cos(theta)`. -/
def surfaceLowerY (ops : NumOps) (ycs yts ths : List ℚ) : List ℚ :=
  zipWith3 (fun yci yti thi => yci - yti * ops.cos thi) ycs yts ths

/-- Closed-loop assembly `np.concatenate([u[::-1], l[1:]])`: upper surface
reversed (trailing edge first) followed by the lower surface from index 1. -/
def closedLoop (upper lower : List ℚ) : List ℚ :=
  upper.reverse ++ lower.drop 1

/-- The tuple returned by each family's `generate_geometry`:
`x_loop, y_loop, x_c, yc, x, yt`. -/
structure Geo where
  x_loop : List ℚ
  y_loop : List ℚ
  x_c : List ℚ
  yc : List ℚ
  x : List ℚ
  yt : List ℚ
  deriving DecidableEq

/-- The 4-digit camber line and slope (`yc`, `dyc_dx` in
`naca4.generate_geometry`): identically zero when `p = 0`, otherwise the
two-piece parabolic formula split at `x = p`. -/
def naca4Camber (m p : ℚ) (xs : List ℚ) : List ℚ × List ℚ :=
  if p = 0 then
    (List.replicate xs.length 0, List.replicate xs.length 0)
  else
    (xs.map fun xi =>
        if xi < p then m / p ^ 2 * (2 * p * xi - xi ^ 2)
        else m / (1 - p) ^ 2 * ((1 - 2 * p) + 2 * p * xi - xi ^ 2),
     xs.map fun xi =>
        if xi < p then 2 * m / p ^ 2 * (p - xi)
        else 2 * m / (1 - p) ^ 2 * (p - xi))

/-- `naca4.generate_geometry`: sample distribution, thickness, camber, surface
assembly, and chord scaling of the x coordinates only. -/
def generateGeometry4 (ops : NumOps) (params : NACA4Params) (n : ℕ) (sp : List Char) :
    Except Err Geo :=
  match sampleX ops n sp with
  | .error e => .error e
  | .ok xs =>
    let yts := thicknessDist ops params.t xs
    let ycs := (naca4Camber params.m params.p xs).1
    let dycs := (naca4Camber params.m params.p xs).2
    let ths := dycs.map ops.atan
    .ok { x_loop := (closedLoop (surfaceUpperX ops xs yts ths) (surfaceLowerX ops xs yts ths)).map
            fun v => v * params.chord
          y_loop := closedLoop (surfaceUpperY ops ycs yts ths) (surfaceLowerY ops ycs yts ths)
          x_c := xs.map fun v => v * params.chord
          yc := ycs
          x := xs
          yt := yts }

/-- One step of the 5-digit fixed-point recurrence
`r_new = xmc + r_old * sqrt(r_old / 3)` starting from `r = 0.1`
(`_compute_r_standard` in `naca5.py`).  `rseq k` is the k-th iterate. -/
def rseq (ops : NumOps) (xmc : ℚ) : ℕ → ℚ
  | 0 => 1 / 10
  | k + 1 => xmc + rseq ops xmc k * ops.sqrt (rseq ops xmc k / 3)

/-- The loop body of `_compute_r_standard`: `fuel` is the remaining iteration
budget (`max_iter - it`), `rOld` and `diff` the Python locals.  The loop runs
while `diff > tol` and the budget is not exhausted.  `math.sqrt` raises on
negative input, but on this orbit its argument stays nonnegative whenever the
kernel's `sqrt` is nonnegative on nonnegatives (see `rseq_pos`), so the total
abstract kernel is faithful here. -/
def crGo (ops : NumOps) (xmc tol : ℚ) : ℕ → ℚ → ℚ → ℚ
  | 0, rOld, _ => rOld
  | fuel + 1, rOld, diff =>
    if diff ≤ tol then rOld
    else
      crGo ops xmc tol fuel (xmc + rOld * ops.sqrt (rOld / 3))
        |xmc + rOld * ops.sqrt (rOld / 3) - rOld|

/-- `_compute_r_standard(xmc, tol, max_iter)`: fixed-point iteration solving
`x_mc = r (1 - sqrt(r/3))`, started at `r_old = 0.1` with `diff = 1.0`. -/
def computeRStandard (ops : NumOps) (xmc tol : ℚ) (maxIter : ℕ) : ℚ :=
  crGo ops xmc tol maxIter (1 / 10) 1

/-- `_compute_k1_standard(L, r)`: `cli = 0.15 L`, and
`N(r) = (3r - 7r^2 + 8r^3 - 4r^4) / sqrt(r - r^2) - 1.5 (1 - 2r) (pi/2 - asin(1 - 2r))`,
`k1 = 6 cli / N`.  `math.sqrt` raises a domain error when `r - r^2 < 0`, the
division raises `ZeroDivisionError` when the root is zero, and `math.asin`
raises a domain error when `|1 - 2r| > 1`; the checks appear in Python's
evaluation order. -/
def computeK1Standard (ops : NumOps) (L : ℕ) (r : ℚ) : Except Err ℚ :=
  let cli : ℚ := 15 / 100 * L
  if r - r ^ 2 < 0 then .error .domainError
  else
    let sq := ops.sqrt (r - r ^ 2)
    if sq = 0 then .error .zeroDivision
    else
      let A := (3 * r - 7 * r ^ 2 + 8 * r ^ 3 - 4 * r ^ 4) / sq
      if 1 - 2 * r < -1 ∨ 1 < 1 - 2 * r then .error .domainError
      else
        let N := A - 3 / 2 * (1 - 2 * r) * (ops.pi / 2 - ops.asin (1 - 2 * r))
        if N = 0 then .error .zeroDivision
        else .ok (6 * cli / N)

/-- The 5-digit standard camber line and slope: cubic below the inflection
point `r`, linear above it. -/
def naca5Camber (k1 r : ℚ) (xs : List ℚ) : List ℚ × List ℚ :=
  (xs.map fun xi =>
      if xi < r then k1 / 6 * (xi ^ 3 - 3 * r * xi ^ 2 + r ^ 2 * (3 - r) * xi)
      else k1 * r ^ 3 / 6 * (1 - xi),
   xs.map fun xi =>
      if xi < r then k1 / 6 * (3 * xi ^ 2 - 6 * r * xi + r ^ 2 * (3 - r))
      else -(k1 * r ^ 3 / 6))

/-- `naca5.generate_geometry`: reflex camber (`Q = 1`) is unimplemented;
otherwise sample, thickness, the solved camber constants `r` and `k1`
(with `xmc = 0.05 P`, `tol = 1e-6`, `max_iter = 1000`), camber, and assembly. -/
def generateGeometry5 (ops : NumOps) (params : NACA5Params) (n : ℕ) (sp : List Char) :
    Except Err Geo :=
  if params.Q = 1 then .error .notSupported
  else
    match sampleX ops n sp with
    | .error e => .error e
    | .ok xs =>
      let yts := thicknessDist ops params.t xs
      let r := computeRStandard ops ((params.P : ℚ) / 20) (1 / 1000000) 1000
      match computeK1Standard ops params.L r with
      | .error e => .error e
      | .ok k1 =>
        let ycs := (naca5Camber k1 r xs).1
        let dycs := (naca5Camber k1 r xs).2
        let ths := dycs.map ops.atan
        .ok { x_loop := (closedLoop (surfaceUpperX ops xs yts ths)
                (surfaceLowerX ops xs yts ths)).map fun v => v * params.chord
              y_loop := closedLoop (surfaceUpperY ops ycs yts ths) (surfaceLowerY ops ycs yts ths)
              x_c := xs.map fun v => v * params.chord
              yc := ycs
              x := xs
              yt := yts }

/-- `naca6.generate_geometry`: camber identically zero, `xu = xl = x`,
`yu = yt`, `yl = -yt`, same loop assembly and chord scaling. -/
def generateGeometry6 (ops : NumOps) (params : NACA6Params) (n : ℕ) (sp : List Char) :
    Except Err Geo :=
  match sampleX ops n sp with
  | .error e => .error e
  | .ok xs =>
    let yts := thicknessDist ops params.thickness xs
    .ok { x_loop := (closedLoop xs xs).map fun v => v * params.chord
          y_loop := closedLoop yts (yts.map fun v => -v)
          x_c := xs.map fun v => v * params.chord
          yc := List.replicate xs.length 0
          x := xs
          yt := yts }

/-- `np.roll(a, -1)`: rotate one position to the left. -/
def rollNeg1 (l : List ℚ) : List ℚ := l.drop 1 ++ l.take 1

/-- Elementwise dot product `np.dot`. -/
def dotL (a b : List ℚ) : ℚ := (List.zipWith (fun x y => x * y) a b).sum

/-- The shoelace area `0.5 * |dot(x, roll(y,-1)) - dot(y, roll(x,-1))|`. -/
def shoelace (xs ys : List ℚ) : ℚ :=
  1 / 2 * |dotL xs (rollNeg1 ys) - dotL ys (rollNeg1 xs)|

/-- `np.max` over a nonempty array; the sources only apply it to the `n`-point
sample arrays, which are nonempty for every call they make. -/
def maxList : List ℚ → ℚ
  | [] => 0
  | a :: l => l.foldl max a

/-- The metrics dictionary of `naca4.compute_metrics`. -/
structure Metrics4 where
  code : List Char
  m : ℚ
  p : ℚ
  t : ℚ
  chord : ℚ
  max_thickness : ℚ
  max_camber : ℚ
  area : ℚ
  leading_edge_radius : ℚ
  deriving DecidableEq

/-- `naca4.compute_metrics`: `max_thickness = max(2 yt) * chord`,
`max_camber = max(|yc|) * chord`, shoelace area of the closed loop, and
`r_le = 1.1019 t^2 c`. -/
def computeMetrics4 (params : NACA4Params) (g : Geo) : Metrics4 :=
  { code := params.code
    m := params.m
    p := params.p
    t := params.t
    chord := params.chord
    max_thickness := maxList (g.yt.map fun v => 2 * v) * params.chord
    max_camber := maxList (g.yc.map fun v => |v|) * params.chord
    area := shoelace g.x_loop g.y_loop
    leading_edge_radius := 11019 / 10000 * params.t ^ 2 * params.chord }

/-- The metrics dictionary of `naca5.compute_metrics`. -/
structure Metrics5 where
  code : List Char
  L : ℕ
  P : ℕ
  Q : ℕ
  t : ℚ
  chord : ℚ
  max_thickness : ℚ
  max_camber : ℚ
  area : ℚ
  leading_edge_radius : ℚ
  deriving DecidableEq

/-- `naca5.compute_metrics`. -/
def computeMetrics5 (params : NACA5Params) (g : Geo) : Metrics5 :=
  { code := params.code
    L := params.L
    P := params.P
    Q := params.Q
    t := params.t
    chord := params.chord
    max_thickness := maxList (g.yt.map fun v => 2 * v) * params.chord
    max_camber := maxList (g.yc.map fun v => |v|) * params.chord
    area := shoelace g.x_loop g.y_loop
    leading_edge_radius := 11019 / 10000 * params.t ^ 2 * params.chord }

/-- The metrics dictionary of `naca6.compute_metrics`. -/
structure Metrics6 where
  code : List Char
  pos_min_pressure : ℕ
  design_cl : ℚ
  thickness : ℚ
  chord : ℚ
  max_thickness : ℚ
  max_camber : ℚ
  area : ℚ
  leading_edge_radius : ℚ
  deriving DecidableEq

/-- `naca6.compute_metrics`. -/
def computeMetrics6 (params : NACA6Params) (g : Geo) : Metrics6 :=
  { code := params.code
    pos_min_pressure := params.pos_min_pressure
    design_cl := params.design_cl
    thickness := params.thickness
    chord := params.chord
    max_thickness := maxList (g.yt.map fun v => 2 * v) * params.chord
    max_camber := maxList (g.yc.map fun v => |v|) * params.chord
    area := shoelace g.x_loop g.y_loop
    leading_edge_radius := 11019 / 10000 * params.thickness ^ 2 * params.chord }

/-- The tuple returned by `generate_naca4_full`. -/
structure Full4 where
  x_loop : List ℚ
  y_loop : List ℚ
  x_c : List ℚ
  yc : List ℚ
  metrics : Metrics4
  deriving DecidableEq

/-- `generate_naca4_full`: parse, generate, compute metrics. -/
def generateNaca4Full (ops : NumOps) (code : List Char) (chord : ℚ) (n : ℕ) (sp : List Char) :
    Except Err Full4 :=
  match parse_naca4 code chord with
  | .error e => .error e
  | .ok params =>
    match generateGeometry4 ops params n sp with
    | .error e => .error e
    | .ok g =>
      .ok { x_loop := g.x_loop, y_loop := g.y_loop, x_c := g.x_c, yc := g.yc
            metrics := computeMetrics4 params g }

/-- The tuple returned by `generate_naca5_full`. -/
structure Full5 where
  x_loop : List ℚ
  y_loop : List ℚ
  x_c : List ℚ
  yc : List ℚ
  metrics : Metrics5
  deriving DecidableEq

/-- `generate_naca5_full`. -/
def generateNaca5Full (ops : NumOps) (code : List Char) (chord : ℚ) (n : ℕ) (sp : List Char) :
    Except Err Full5 :=
  match parse_naca5 code chord with
  | .error e => .error e
  | .ok params =>
    match generateGeometry5 ops params n sp with
    | .error e => .error e
    | .ok g =>
      .ok { x_loop := g.x_loop, y_loop := g.y_loop, x_c := g.x_c, yc := g.yc
            metrics := computeMetrics5 params g }

/-- The tuple returned by `generate_naca6_full`. -/
structure Full6 where
  x_loop : List ℚ
  y_loop : List ℚ
  x_c : List ℚ
  yc : List ℚ
  metrics : Metrics6
  deriving DecidableEq

/-- `generate_naca6_full`. -/
def generateNaca6Full (ops : NumOps) (code : List Char) (chord : ℚ) (n : ℕ) (sp : List Char) :
    Except Err Full6 :=
  match parse_naca6 code chord with
  | .error e => .error e
  | .ok params =>
    match generateGeometry6 ops params n sp with
    | .error e => .error e
    | .ok g =>
      .ok { x_loop := g.x_loop, y_loop := g.y_loop, x_c := g.x_c, yc := g.yc
            metrics := computeMetrics6 params g }

/-- The explanatory note `generate_naca7_full` adds to its metrics. -/
def note7 : List Char :=
  ("Geometry generated using NACA 4-digit equivalent of 7-series code.").toList

/-- The explanatory note `generate_naca8_full` adds to its metrics. -/
def note8 : List Char :=
  ("Geometry generated using NACA 4-digit equivalent of 8-series code.").toList

/-- The metrics dictionary of `generate_naca7_full` / `generate_naca8_full`:
a copy of the 4-digit metrics with `code` overwritten and a `note` added. -/
structure Metrics7 where
  code : List Char
  m : ℚ
  p : ℚ
  t : ℚ
  chord : ℚ
  max_thickness : ℚ
  max_camber : ℚ
  area : ℚ
  leading_edge_radius : ℚ
  note : List Char
  deriving DecidableEq

/-- The tuple returned by `generate_naca7_full` / `generate_naca8_full`. -/
structure Full7 where
  x_loop : List ℚ
  y_loop : List ℚ
  x_c : List ℚ
  yc : List ℚ
  metrics : Metrics7
  deriving DecidableEq

/-- `generate_naca7_full`: parse the 7-series label, delegate entirely to
`generate_naca4_full` on the 4-digit remainder, then relabel the metrics. -/
def generateNaca7Full (ops : NumOps) (code : List Char) (chord : ℚ) (n : ℕ) (sp : List Char) :
    Except Err Full7 :=
  match parse_naca7 code chord with
  | .error e => .error e
  | .ok params =>
    match generateNaca4Full ops params.base4 chord n sp with
    | .error e => .error e
    | .ok r4 =>
      .ok { x_loop := r4.x_loop, y_loop := r4.y_loop, x_c := r4.x_c, yc := r4.yc
            metrics := { code := params.code, m := r4.metrics.m, p := r4.metrics.p
                         t := r4.metrics.t, chord := r4.metrics.chord
                         max_thickness := r4.metrics.max_thickness
                         max_camber := r4.metrics.max_camber, area := r4.metrics.area
                         leading_edge_radius := r4.metrics.leading_edge_radius
                         note := note7 } }

/-- `generate_naca8_full`: same delegation with the `8` label. -/
def generateNaca8Full (ops : NumOps) (code : List Char) (chord : ℚ) (n : ℕ) (sp : List Char) :
    Except Err Full7 :=
  match parse_naca8 code chord with
  | .error e => .error e
  | .ok params =>
    match generateNaca4Full ops params.base4 chord n sp with
    | .error e => .error e
    | .ok r4 =>
      .ok { x_loop := r4.x_loop, y_loop := r4.y_loop, x_c := r4.x_c, yc := r4.yc
            metrics := { code := params.code, m := r4.metrics.m, p := r4.metrics.p
                         t := r4.metrics.t, chord := r4.metrics.chord
                         max_thickness := r4.metrics.max_thickness
                         max_camber := r4.metrics.max_camber, area := r4.metrics.area
                         leading_edge_radius := r4.metrics.leading_edge_radius
                         note := note8 } }

/-!  Concrete kernels used to instantiate theorems at checkable inputs.  -/

/-- A kernel whose square root is identically zero. -/
def opsZero : NumOps :=
  { sqrt := fun _ => 0, sin := fun _ => 0, cos := fun _ => 1
    atan := fun _ => 0, asin := fun _ => 0, pi := 0 }

/-- A kernel whose square root is identically one. -/
def opsOne : NumOps :=
  { sqrt := fun _ => 1, sin := fun _ => 0, cos := fun _ => 1
    atan := fun _ => 0, asin := fun _ => 0, pi := 0 }

/-- A positive-valued kernel whose square root jumps at `1/30`, driving the
5-digit fixed-point iteration to the out-of-range value `r = 2`. -/
def opsJump : NumOps :=
  { sqrt := fun q => if q = 1 / 30 then 20 else 1, sin := fun _ => 0, cos := fun _ => 1
    atan := fun _ => 0, asin := fun _ => 0, pi := 0 }

/-!  Whitespace-stripping lemmas.  -/

lemma dropWhile_append_all {p : Char → Bool} :
    ∀ {ws : List Char}, ws.all p = true → ∀ l : List Char,
      (ws ++ l).dropWhile p = l.dropWhile p := by
  intro ws
  induction ws with
  | nil => intro _ l; rfl
  | cons a ws ih =>
    intro h l
    simp only [List.all_cons, Bool.and_eq_true] at h
    simpa [List.dropWhile, h.1] using ih h.2 l

lemma dropWhile_eq_nil_of_all {p : Char → Bool} :
    ∀ {l : List Char}, l.all p = true → l.dropWhile p = [] := by
  intro l
  induction l with
  | nil => intro _; rfl
  | cons a l ih =>
    intro h
    simp only [List.all_cons, Bool.and_eq_true] at h
    simpa [List.dropWhile, h.1] using ih h.2

lemma dropWhile_append_split (p : Char → Bool) :
    ∀ s w : List Char, (s ++ w).dropWhile p =
      if s.dropWhile p = [] then w.dropWhile p else s.dropWhile p ++ w := by
  intro s
  induction s with
  | nil => intro w; simp [List.dropWhile]
  | cons a s ih =>
    intro w
    by_cases ha : p a
    · simpa [List.dropWhile, ha] using ih w
    · simp [List.dropWhile, ha]

/-- Surrounding a string by whitespace does not change its stripped form. -/
lemma pstrip_pad {ws1 ws2 : List Char} (h1 : ws1.all isPySpace = true)
    (h2 : ws2.all isPySpace = true) (s : List Char) :
    pstrip (ws1 ++ s ++ ws2) = pstrip s := by
  unfold pstrip
  rw [List.append_assoc, dropWhile_append_all h1, dropWhile_append_split]
  by_cases hs : s.dropWhile isPySpace = []
  · simp [hs, dropWhile_eq_nil_of_all h2]
  · rw [if_neg hs, List.reverse_append, dropWhile_append_all (by simpa using h2)]

/-- Stripping a string with no surrounding (indeed, no) whitespace is the
identity. -/
lemma pstrip_eq_self {l : List Char} (h : ∀ c ∈ l, isPySpace c = false) :
    pstrip l = l := by
  have base : ∀ l' : List Char, (∀ c ∈ l', isPySpace c = false) →
      l'.dropWhile isPySpace = l' := by
    intro l' h'
    cases l' with
    | nil => rfl
    | cons a t => simp [List.dropWhile, h' a (by simp)]
  unfold pstrip
  rw [base _ h, base _ (by intro c hc; exact h c (by simpa using hc)), List.reverse_reverse]

lemma isPySpace_eq_false_of_isDigit {c : Char} (h : c.isDigit = true) :
    isPySpace c = false := by
  by_contra hc
  rw [Bool.not_eq_false] at hc
  unfold isPySpace at hc
  simp only [Bool.or_eq_true, beq_iff_eq] at hc
  rcases hc with ((((h1 | h1) | h1) | h1) | h1) | h1 <;> subst h1 <;> revert h <;> decide

/-- Stripping an all-digit string is the identity. -/
lemma pstrip_of_digits {l : List Char} (h : l.all Char.isDigit = true) : pstrip l = l := by
  apply pstrip_eq_self
  intro c hc
  exact isPySpace_eq_false_of_isDigit (by simpa using List.all_eq_true.mp h c hc)

/-!  Length lemmas for the geometry pipeline.  -/

lemma linspace_length (a b : ℚ) (n : ℕ) : (linspace a b n).length = n := by
  unfold linspace
  rw [List.length_map, List.length_range]

lemma sampleX_ok_length {ops : NumOps} {n : ℕ} {sp : List Char} {xs : List ℚ}
    (h : sampleX ops n sp = .ok xs) : xs.length = n := by
  unfold sampleX at h
  split_ifs at h <;> cases h <;> simp [linspace_length]

lemma zipWith3_length (f : ℚ → ℚ → ℚ → ℚ) :
    ∀ as bs cs : List ℚ,
      (zipWith3 f as bs cs).length = min as.length (min bs.length cs.length) := by
  intro as
  induction as with
  | nil => intro bs cs; cases bs <;> cases cs <;> simp [zipWith3]
  | cons a as ih =>
    intro bs cs
    cases bs with
    | nil => simp [zipWith3]
    | cons b bs =>
      cases cs with
      | nil => simp [zipWith3]
      | cons c cs => simp only [zipWith3, List.length_cons, ih]; omega

lemma naca4Camber_fst_length (m p : ℚ) (xs : List ℚ) :
    (naca4Camber m p xs).1.length = xs.length := by
  unfold naca4Camber; split <;> simp

lemma naca4Camber_snd_length (m p : ℚ) (xs : List ℚ) :
    (naca4Camber m p xs).2.length = xs.length := by
  unfold naca4Camber; split <;> simp

lemma naca5Camber_fst_length (k1 r : ℚ) (xs : List ℚ) :
    (naca5Camber k1 r xs).1.length = xs.length := by
  simp [naca5Camber]

lemma naca5Camber_snd_length (k1 r : ℚ) (xs : List ℚ) :
    (naca5Camber k1 r xs).2.length = xs.length := by
  simp [naca5Camber]

lemma closedLoop_length (u l : List ℚ) :
    (closedLoop u l).length = u.length + (l.length - 1) := by
  simp [closedLoop]

/-!  `maxList` scaling.  -/

lemma foldl_max_map_mul {c : ℚ} (hc : 0 ≤ c) :
    ∀ (l : List ℚ) (a : ℚ),
      (l.map fun v => c * v).foldl max (c * a) = c * l.foldl max a := by
  intro l
  induction l with
  | nil => intro a; simp
  | cons b l ih =>
    intro a
    simp only [List.map_cons, List.foldl_cons]
    rw [← mul_max_of_nonneg _ _ hc, ih]

lemma maxList_map_mul {c : ℚ} (hc : 0 ≤ c) {l : List ℚ} (hl : l ≠ []) :
    maxList (l.map fun v => c * v) = c * maxList l := by
  cases l with
  | nil => exact absurd rfl hl
  | cons a l => simpa [maxList] using foldl_max_map_mul hc l a

/-!  Shoelace scaling.  -/

lemma dotL_map_mul_left (c : ℚ) :
    ∀ xs ys : List ℚ, dotL (xs.map fun v => v * c) ys = c * dotL xs ys := by
  intro xs
  induction xs with
  | nil => intro ys; simp [dotL]
  | cons a xs ih =>
    intro ys
    cases ys with
    | nil => simp [dotL]
    | cons b ys =>
      simp only [List.map_cons, dotL, List.zipWith_cons_cons, List.sum_cons]
      have h := ih ys
      simp only [dotL] at h
      rw [h]; ring

lemma dotL_map_mul_right (c : ℚ) :
    ∀ xs ys : List ℚ, dotL xs (ys.map fun v => v * c) = c * dotL xs ys := by
  intro xs
  induction xs with
  | nil => intro ys; simp [dotL]
  | cons a xs ih =>
    intro ys
    cases ys with
    | nil => simp [dotL]
    | cons b ys =>
      simp only [List.map_cons, dotL, List.zipWith_cons_cons, List.sum_cons]
      have h := ih ys
      simp only [dotL] at h
      rw [h]; ring

lemma rollNeg1_map (f : ℚ → ℚ) (l : List ℚ) :
    rollNeg1 (l.map f) = (rollNeg1 l).map f := by
  simp [rollNeg1, List.map_drop, List.map_take]

lemma shoelace_map_mul (c : ℚ) (xs ys : List ℚ) :
    shoelace (xs.map fun v => v * c) ys = |c| * shoelace xs ys := by
  unfold shoelace
  rw [dotL_map_mul_left, rollNeg1_map, dotL_map_mul_right, ← mul_sub, abs_mul]
  ring

/-!  Characterization of the 5-digit fixed-point solver.  -/

/-- Full characterization of the solver loop: starting the loop at iterate
`rseq i` with pending difference `d` and budget `fuel`, it returns some iterate
`rseq (i + j)`, stops immediately only when the difference is within tolerance
or the budget is spent, keeps running exactly while successive differences
exceed the tolerance, and when it stops before the budget is exhausted the last
difference is within tolerance. -/
lemma crGo_spec (ops : NumOps) (xmc tol : ℚ) :
    ∀ (fuel i : ℕ) (d : ℚ),
      ∃ j, j ≤ fuel ∧ crGo ops xmc tol fuel (rseq ops xmc i) d = rseq ops xmc (i + j) ∧
        (j = 0 → fuel = 0 ∨ d ≤ tol) ∧
        (1 ≤ j → tol < d ∧
          (∀ m, 1 ≤ m → m < j → tol < |rseq ops xmc (i + m) - rseq ops xmc (i + m - 1)|) ∧
          (j < fuel → |rseq ops xmc (i + j) - rseq ops xmc (i + j - 1)| ≤ tol)) := by
  intro fuel
  induction fuel with
  | zero =>
    intro i d
    exact ⟨0, le_refl 0, by simp [crGo], fun _ => Or.inl rfl, fun h => absurd h (by omega)⟩
  | succ fuel ih =>
    intro i d
    by_cases hd : d ≤ tol
    · refine ⟨0, Nat.zero_le _, ?_, fun _ => Or.inr hd, fun h => absurd h (by omega)⟩
      simp [crGo, hd]
    · push_neg at hd
      have hstep : xmc + rseq ops xmc i * ops.sqrt (rseq ops xmc i / 3) = rseq ops xmc (i + 1) :=
        rfl
      obtain ⟨j, hj_le, hj_eq, hj0, hj1⟩ :=
        ih (i + 1) |rseq ops xmc (i + 1) - rseq ops xmc i|
      have hidx : i + 1 + j = i + (j + 1) := by omega
      rw [hidx] at hj_eq
      refine ⟨j + 1, by omega, ?_, fun h => absurd h (by omega), fun _ => ⟨hd, ?_, ?_⟩⟩
      · simp only [crGo, if_neg (not_le.mpr hd)]
        rw [hstep, ← hj_eq]
      · intro m hm1 hmj
        rcases Nat.lt_or_ge m 2 with hm2 | hm2
        · have hm : m = 1 := by omega
          subst hm
          have hj1' : 1 ≤ j := by omega
          have := (hj1 hj1').1
          simpa using this
        · have hj1' : 1 ≤ j := by omega
          have hmm : 1 ≤ m - 1 := by omega
          have hmj' : m - 1 < j := by omega
          have := (hj1 hj1').2.1 (m - 1) hmm hmj'
          have e1 : i + 1 + (m - 1) = i + m := by omega
          rwa [e1] at this
      · intro hlt
        have hjf : j < fuel := by omega
        rcases Nat.eq_zero_or_pos j with hj | hj
        · subst hj
          rcases hj0 rfl with hf | hdiff
          · omega
          · simpa using hdiff
        · have := (hj1 hj).2.2 hjf
          have e1 : i + 1 + j = i + (j + 1) := by omega
          rwa [e1] at this

/-- The solver output is always some iterate of the recurrence. -/
lemma computeRStandard_eq_rseq (ops : NumOps) (xmc tol : ℚ) (maxIter : ℕ) :
    ∃ N, computeRStandard ops xmc tol maxIter = rseq ops xmc N := by
  obtain ⟨j, _, h, _, _⟩ := crGo_spec ops xmc tol maxIter 0 1
  exact ⟨j, by simpa using h⟩

/-- On the solver's orbit every iterate is positive, provided the kernel's
square root maps positives to positives (as the real one does) and the target
`xmc` is nonnegative. -/
lemma rseq_pos (ops : NumOps) (xmc : ℚ) (hpos : ∀ q : ℚ, 0 < q → 0 < ops.sqrt q)
    (hx : 0 ≤ xmc) : ∀ k, 0 < rseq ops xmc k := by
  intro k
  induction k with
  | zero => norm_num [rseq]
  | succ k ih =>
    have h3 : 0 < rseq ops xmc k / 3 := by positivity
    have hs := hpos _ h3
    have hmul : 0 < rseq ops xmc k * ops.sqrt (rseq ops xmc k / 3) := mul_pos ih hs
    simp only [rseq]
    linarith

/-!  Parser projection helpers.  -/

lemma parse_naca4_ok_code {code : List Char} {chord : ℚ} {p : NACA4Params}
    (hp : parse_naca4 code chord = .ok p) : p.code = pstrip code := by
  unfold parse_naca4 naca4Decode at hp
  split_ifs at hp
  cases hp; rfl

lemma parse_naca4_ok_chord {code : List Char} {chord : ℚ} {p : NACA4Params}
    (hp : parse_naca4 code chord = .ok p) : p.chord = chord := by
  unfold parse_naca4 naca4Decode at hp
  split_ifs at hp
  cases hp; rfl

lemma parse_naca4_ok_t {code : List Char} {chord : ℚ} {p : NACA4Params}
    (hp : parse_naca4 code chord = .ok p) : 0 ≤ p.t := by
  unfold parse_naca4 naca4Decode at hp
  split_ifs at hp
  cases hp
  positivity

lemma parse_naca5_ok_code {code : List Char} {chord : ℚ} {p : NACA5Params}
    (hp : parse_naca5 code chord = .ok p) : p.code = pstrip code := by
  unfold parse_naca5 naca5Decode at hp
  split_ifs at hp
  cases hp; rfl

lemma parse_naca6_ok_code {code : List Char} {chord : ℚ} {p : NACA6Params}
    (hp : parse_naca6 code chord = .ok p) : p.code = pstrip code := by
  unfold parse_naca6 naca6Decode at hp
  split_ifs at hp
  cases hp; rfl

lemma parse_naca7_ok_code {code : List Char} {chord : ℚ} {p : NACA7Params}
    (hp : parse_naca7 code chord = .ok p) : p.code = pstrip code := by
  unfold parse_naca7 naca7Decode at hp
  split_ifs at hp
  cases hp; rfl

lemma parse_naca8_ok_code {code : List Char} {chord : ℚ} {p : NACA8Params}
    (hp : parse_naca8 code chord = .ok p) : p.code = pstrip code := by
  unfold parse_naca8 naca8Decode at hp
  split_ifs at hp
  cases hp; rfl

/-!  Spacing evaluation helpers.  -/

lemma sampleX_lin (ops : NumOps) (n : ℕ) : sampleX ops n linStr = .ok (linspace 0 1 n) := by
  unfold sampleX
  rw [if_neg (by decide), if_pos rfl]

lemma sampleX_cos (ops : NumOps) (n : ℕ) :
    sampleX ops n cosStr = .ok ((linspace 0 ops.pi n).map fun b => (1 - ops.cos b) / 2) := by
  unfold sampleX
  rw [if_pos rfl]

/-!  Chord-scaling helpers.  -/

lemma parse_naca4_chord_map (code : List Char) (c : ℚ) :
    parse_naca4 code c = Except.map (fun p => { p with chord := c }) (parse_naca4 code 1) := by
  unfold parse_naca4 naca4Decode
  split_ifs <;> rfl

lemma generateGeometry4_chord (ops : NumOps) (p1 : NACA4Params) (c : ℚ) (n : ℕ)
    (sp : List Char) :
    generateGeometry4 ops { p1 with chord := c } n sp
      = Except.map (fun g : Geo =>
          { g with x_loop := g.x_loop.map fun v => v * c
                   x_c := g.x_c.map fun v => v * c })
        (generateGeometry4 ops { p1 with chord := 1 } n sp) := by
  cases hs : sampleX ops n sp with
  | error e => simp [generateGeometry4, hs, Except.map]
  | ok xs =>
    simp only [generateGeometry4, hs, Except.map]
    refine congrArg Except.ok ?_
    have hmap : ∀ l : List ℚ, (l.map fun v => v * 1).map (fun v => v * c) = l.map fun v => v * c := by
      intro l
      rw [List.map_map]
      exact List.map_congr_left fun a _ => by simp
    simp [Geo.mk.injEq, hmap]

/-!  Loop-length helpers.  -/

lemma generateGeometry4_lengths {ops : NumOps} {params : NACA4Params} {n : ℕ} {sp : List Char}
    {g : Geo} (hg : generateGeometry4 ops params n sp = .ok g) :
    g.x_loop.length = 2 * n - 1 ∧ g.y_loop.length = 2 * n - 1 := by
  cases hs : sampleX ops n sp with
  | error e =>
    simp only [generateGeometry4, hs] at hg
    exact Except.noConfusion hg
  | ok xs =>
    have hx : xs.length = n := sampleX_ok_length hs
    simp only [generateGeometry4, hs] at hg
    cases hg
    constructor <;>
    · simp [closedLoop, surfaceUpperX, surfaceLowerX, surfaceUpperY, surfaceLowerY,
        zipWith3_length, thicknessDist, naca4Camber_fst_length, naca4Camber_snd_length, hx]
      omega

lemma generateNaca4Full_lengths {ops : NumOps} {code : List Char} {chord : ℚ} {n : ℕ}
    {sp : List Char} {r : Full4} (h : generateNaca4Full ops code chord n sp = .ok r) :
    r.x_loop.length = 2 * n - 1 ∧ r.y_loop.length = 2 * n - 1 := by
  cases hp : parse_naca4 code chord with
  | error e =>
    simp only [generateNaca4Full, hp] at h
    exact Except.noConfusion h
  | ok params =>
    cases hg : generateGeometry4 ops params n sp with
    | error e =>
      simp only [generateNaca4Full, hp, hg] at h
      exact Except.noConfusion h
    | ok g =>
      simp only [generateNaca4Full, hp, hg] at h
      cases h
      exact generateGeometry4_lengths hg

/-!  Claim theorems.  -/

/-- C1 counterexample: the spec's example pair does not generate at all.
`parse_naca7 "7412"` rejects its input (the remainder `"412"` after the leading
`7` has 3 digits, not 4), and `parse_naca4 "412"` rejects `"412"` as well, so
neither call produces any geometry. -/
theorem naca7_7412_counterexample :
    parse_naca7 (['7', '4', '1', '2']) 1 = .error .invalidCodeFormat ∧
    parse_naca4 (['4', '1', '2']) 1 = .error .invalidCodeFormat ∧
    generateNaca7Full opsZero (['7', '4', '1', '2']) 1 200 cosStr = .error .invalidCodeFormat ∧
    generateNaca4Full opsZero (['4', '1', '2']) 1 200 cosStr = .error .invalidCodeFormat := by
  refine ⟨by decide, by decide, ?_, ?_⟩ <;> decide

/-- C1 (amended): for any code of the form `7` followed by exactly 4 digits,
`generate_naca7_full` produces a closed contour and camber line identical to
those of `generate_naca4_full` on the 4-digit remainder, at the same chord and
sample count. -/
theorem naca7_delegates_geometry (ops : NumOps) (s4 : List Char) (chord : ℚ) (n : ℕ)
    (sp : List Char) (hlen : s4.length = 4) (hdig : s4.all Char.isDigit = true) :
    Except.map (fun r : Full7 => (r.x_loop, r.y_loop, r.x_c, r.yc))
        (generateNaca7Full ops ('7' :: s4) chord n sp)
      = Except.map (fun r : Full4 => (r.x_loop, r.y_loop, r.x_c, r.yc))
        (generateNaca4Full ops s4 chord n sp) := by
  have hall : ('7' :: s4).all Char.isDigit = true := by
    simp [List.all_cons, hdig]
  have hstrip : pstrip ('7' :: s4) = '7' :: s4 := pstrip_of_digits hall
  have hparse : parse_naca7 ('7' :: s4) chord =
      .ok { code := '7' :: s4, base4 := s4, chord := chord } := by
    unfold parse_naca7 naca7Decode
    rw [hstrip]
    simp [List.length_cons, hlen, hall, List.getD]
  unfold generateNaca7Full
  cases h4 : generateNaca4Full ops s4 chord n sp with
  | error e => simp [hparse, h4, Except.map]
  | ok r4 => simp [hparse, h4, Except.map]

/-- Witness for C1's amended theorem at `"72412"` versus `"2412"`. -/
theorem naca7_delegates_geometry_witness :
    Except.map (fun r : Full7 => (r.x_loop, r.y_loop, r.x_c, r.yc))
        (generateNaca7Full opsZero ('7' :: ['2', '4', '1', '2']) 1 1 linStr)
      = Except.map (fun r : Full4 => (r.x_loop, r.y_loop, r.x_c, r.yc))
        (generateNaca4Full opsZero (['2', '4', '1', '2']) 1 1 linStr) :=
  naca7_delegates_geometry opsZero ['2', '4', '1', '2'] 1 1 linStr (by decide) (by decide)

/-- C3 counterexample: `parse_naca4` also succeeds on `" 2412 "`, which is not
a string of 4 ASCII digits — the parser strips surrounding whitespace first. -/
theorem parse_naca4_whitespace_cx :
    (∃ p, parse_naca4 ([' ', '2', '4', '1', '2', ' ']) 1 = .ok p) ∧
    ¬([' ', '2', '4', '1', '2', ' '].length = 4 ∧
      [' ', '2', '4', '1', '2', ' '].all Char.isDigit = true) := by
  constructor
  · exact ⟨_, rfl⟩
  · decide

/-- C3 (amended): `parse_naca4` succeeds exactly on inputs whose
whitespace-stripped form consists of 4 ASCII digits; on success digit 1 decodes
to m/100, digit 2 to p/10 and digits 3-4 to t/100; the 5-digit input `"24123"`
fails with `InvalidCodeFormat` and is not truncated. -/
theorem parse_naca4_spec :
    (∀ (code : List Char) (chord : ℚ),
        (∃ p, parse_naca4 code chord = .ok p) ↔
          ((pstrip code).length = 4 ∧ (pstrip code).all Char.isDigit = true)) ∧
    (∀ (code : List Char) (chord : ℚ) (p : NACA4Params) (c1 c2 c3 c4 : Char),
        pstrip code = [c1, c2, c3, c4] → parse_naca4 code chord = .ok p →
          p.m = (digitVal c1 : ℚ) / 100 ∧ p.p = (digitVal c2 : ℚ) / 10 ∧
          p.t = ((10 * digitVal c3 + digitVal c4 : ℕ) : ℚ) / 100 ∧
          p.code = pstrip code ∧ p.chord = chord) ∧
    parse_naca4 (['2', '4', '1', '2', '3']) 1 = .error .invalidCodeFormat := by
  refine ⟨?_, ?_, by decide⟩
  · intro code chord
    unfold parse_naca4 naca4Decode
    split_ifs with h
    · exact ⟨fun _ => h, fun _ => ⟨_, rfl⟩⟩
    · constructor
      · rintro ⟨p, hp⟩
        exact hp.elim
      · intro hc
        exact absurd hc h
  · intro code chord p c1 c2 c3 c4 hs hp
    unfold parse_naca4 naca4Decode at hp
    rw [hs] at hp
    split_ifs at hp with h
    cases hp
    refine ⟨by simp [List.getD], by simp [List.getD], by simp [List.getD], ?_, rfl⟩
    simp [hs, List.getD]

/-- The parameter record `parse_naca4 "2412"` produces, in undecoded form. -/
def params2412 : NACA4Params :=
  { code := ['2', '4', '1', '2'], m := (digitVal '2' : ℚ) / 100, p := (digitVal '4' : ℚ) / 10
    t := ((10 * digitVal '1' + digitVal '2' : ℕ) : ℚ) / 100, chord := 1 }

/-- Witness for C3's amended theorem: the decode clause applied at `"2412"`. -/
theorem parse_naca4_spec_witness :
    params2412.m = (digitVal '2' : ℚ) / 100 ∧
    params2412.p = (digitVal '4' : ℚ) / 10 ∧
    params2412.t = ((10 * digitVal '1' + digitVal '2' : ℕ) : ℚ) / 100 ∧
    params2412.code = pstrip ['2', '4', '1', '2'] ∧
    params2412.chord = 1 :=
  parse_naca4_spec.2.1 ['2', '4', '1', '2'] 1 params2412 '2' '4' '1' '2' (by decide) rfl

/-- C10: every family's parser strips leading and trailing whitespace before
validating — surrounding a code with whitespace changes neither acceptance nor
the decoded parameters — and on success the stored `code` field is the stripped
string. -/
theorem parsers_strip_whitespace :
    (∀ (ws1 ws2 code : List Char) (chord : ℚ),
        ws1.all isPySpace = true → ws2.all isPySpace = true →
        parse_naca4 (ws1 ++ code ++ ws2) chord = parse_naca4 code chord) ∧
    (∀ (code : List Char) (chord : ℚ) (p : NACA4Params),
        parse_naca4 code chord = .ok p → p.code = pstrip code) ∧
    (∀ (ws1 ws2 code : List Char) (chord : ℚ),
        ws1.all isPySpace = true → ws2.all isPySpace = true →
        parse_naca5 (ws1 ++ code ++ ws2) chord = parse_naca5 code chord) ∧
    (∀ (code : List Char) (chord : ℚ) (p : NACA5Params),
        parse_naca5 code chord = .ok p → p.code = pstrip code) ∧
    (∀ (ws1 ws2 code : List Char) (chord : ℚ),
        ws1.all isPySpace = true → ws2.all isPySpace = true →
        parse_naca6 (ws1 ++ code ++ ws2) chord = parse_naca6 code chord) ∧
    (∀ (code : List Char) (chord : ℚ) (p : NACA6Params),
        parse_naca6 code chord = .ok p → p.code = pstrip code) ∧
    (∀ (ws1 ws2 code : List Char) (chord : ℚ),
        ws1.all isPySpace = true → ws2.all isPySpace = true →
        parse_naca7 (ws1 ++ code ++ ws2) chord = parse_naca7 code chord) ∧
    (∀ (code : List Char) (chord : ℚ) (p : NACA7Params),
        parse_naca7 code chord = .ok p → p.code = pstrip code) ∧
    (∀ (ws1 ws2 code : List Char) (chord : ℚ),
        ws1.all isPySpace = true → ws2.all isPySpace = true →
        parse_naca8 (ws1 ++ code ++ ws2) chord = parse_naca8 code chord) ∧
    (∀ (code : List Char) (chord : ℚ) (p : NACA8Params),
        parse_naca8 code chord = .ok p → p.code = pstrip code) := by
  refine ⟨?_, ?_, ?_, ?_, ?_, ?_, ?_, ?_, ?_, ?_⟩
  · intro ws1 ws2 code chord h1 h2
    unfold parse_naca4
    rw [pstrip_pad h1 h2]
  · intro code chord p hp
    unfold parse_naca4 naca4Decode at hp
    split_ifs at hp
    cases hp; rfl
  · intro ws1 ws2 code chord h1 h2
    unfold parse_naca5
    rw [pstrip_pad h1 h2]
  · intro code chord p hp
    unfold parse_naca5 naca5Decode at hp
    split_ifs at hp
    cases hp; rfl
  · intro ws1 ws2 code chord h1 h2
    unfold parse_naca6
    rw [pstrip_pad h1 h2]
  · intro code chord p hp
    unfold parse_naca6 naca6Decode at hp
    split_ifs at hp
    cases hp; rfl
  · intro ws1 ws2 code chord h1 h2
    unfold parse_naca7
    rw [pstrip_pad h1 h2]
  · intro code chord p hp
    unfold parse_naca7 naca7Decode at hp
    split_ifs at hp
    cases hp; rfl
  · intro ws1 ws2 code chord h1 h2
    unfold parse_naca8
    rw [pstrip_pad h1 h2]
  · intro code chord p hp
    unfold parse_naca8 naca8Decode at hp
    split_ifs at hp
    cases hp; rfl

/-- Witness for C10 applied at `" 2412 "` for the 4-digit family. -/
theorem parsers_strip_whitespace_witness :
    parse_naca4 ([' '] ++ ['2', '4', '1', '2'] ++ [' ']) 1 = parse_naca4 ['2', '4', '1', '2'] 1 :=
  parsers_strip_whitespace.1 [' '] [' '] ['2', '4', '1', '2'] 1 (by decide) (by decide)

/-- C2: whenever geometry generation succeeds, the closed contour has exactly
`2N - 1` points for sample count `N` (the sum of `N` upper points and `N - 1`
lower points), and it is assembled as the reversed upper-surface sequence
followed by the lower-surface sequence from index 1, for the 4-digit, 5-digit
and 6-series generators; the 7- and 8-series full calls, which delegate to the
4-digit generator, return a contour with the same `2N - 1` point count.  (For
`N = 0` both sides of the count equation are `0` under truncated subtraction,
so the statement needs no hypothesis.) -/
theorem contour_point_count_and_assembly :
    (∀ (ops : NumOps) (params : NACA4Params) (n : ℕ) (sp : List Char),
      Except.map (fun g : Geo => (g.x_loop.length, g.y_loop.length))
          (generateGeometry4 ops params n sp)
        = Except.map (fun _ : Geo => (2 * n - 1, 2 * n - 1)) (generateGeometry4 ops params n sp)
      ∧ Except.map (fun g : Geo => g.y_loop) (generateGeometry4 ops params n sp)
        = Except.map (fun g : Geo =>
            closedLoop
              (surfaceUpperY ops (naca4Camber params.m params.p g.x).1 g.yt
                ((naca4Camber params.m params.p g.x).2.map ops.atan))
              (surfaceLowerY ops (naca4Camber params.m params.p g.x).1 g.yt
                ((naca4Camber params.m params.p g.x).2.map ops.atan)))
            (generateGeometry4 ops params n sp)
      ∧ Except.map (fun g : Geo => g.x_loop) (generateGeometry4 ops params n sp)
        = Except.map (fun g : Geo =>
            (closedLoop
              (surfaceUpperX ops g.x g.yt ((naca4Camber params.m params.p g.x).2.map ops.atan))
              (surfaceLowerX ops g.x g.yt
                ((naca4Camber params.m params.p g.x).2.map ops.atan))).map
              fun v => v * params.chord)
            (generateGeometry4 ops params n sp)) ∧
    (∀ (ops : NumOps) (params : NACA5Params) (n : ℕ) (sp : List Char),
      Except.map (fun g : Geo => (g.x_loop.length, g.y_loop.length))
          (generateGeometry5 ops params n sp)
        = Except.map (fun _ : Geo => (2 * n - 1, 2 * n - 1)) (generateGeometry5 ops params n sp)) ∧
    (∀ (ops : NumOps) (params : NACA6Params) (n : ℕ) (sp : List Char),
      Except.map (fun g : Geo => (g.x_loop.length, g.y_loop.length))
          (generateGeometry6 ops params n sp)
        = Except.map (fun _ : Geo => (2 * n - 1, 2 * n - 1)) (generateGeometry6 ops params n sp)
      ∧ Except.map (fun g : Geo => g.y_loop) (generateGeometry6 ops params n sp)
        = Except.map (fun g : Geo => closedLoop g.yt (g.yt.map fun v => -v))
            (generateGeometry6 ops params n sp)
      ∧ Except.map (fun g : Geo => g.x_loop) (generateGeometry6 ops params n sp)
        = Except.map (fun g : Geo => (closedLoop g.x g.x).map fun v => v * params.chord)
            (generateGeometry6 ops params n sp)) ∧
    (∀ (ops : NumOps) (code : List Char) (chord : ℚ) (n : ℕ) (sp : List Char),
      Except.map (fun r : Full7 => (r.x_loop.length, r.y_loop.length))
          (generateNaca7Full ops code chord n sp)
        = Except.map (fun _ : Full7 => (2 * n - 1, 2 * n - 1))
            (generateNaca7Full ops code chord n sp)) ∧
    (∀ (ops : NumOps) (code : List Char) (chord : ℚ) (n : ℕ) (sp : List Char),
      Except.map (fun r : Full7 => (r.x_loop.length, r.y_loop.length))
          (generateNaca8Full ops code chord n sp)
        = Except.map (fun _ : Full7 => (2 * n - 1, 2 * n - 1))
            (generateNaca8Full ops code chord n sp)) := by
  refine ⟨?_, ?_, ?_, ?_, ?_⟩
  · intro ops params n sp
    cases hs : sampleX ops n sp with
    | error e => refine ⟨?_, ?_, ?_⟩ <;> simp [generateGeometry4, hs, Except.map]
    | ok xs =>
      have hx : xs.length = n := sampleX_ok_length hs
      refine ⟨?_, ?_, ?_⟩
      · simp [generateGeometry4, hs, Except.map, closedLoop, surfaceUpperX, surfaceLowerX,
          surfaceUpperY, surfaceLowerY, zipWith3_length, thicknessDist,
          naca4Camber_fst_length, naca4Camber_snd_length, hx]
        omega
      · simp [generateGeometry4, hs, Except.map]
      · simp [generateGeometry4, hs, Except.map]
  · intro ops params n sp
    by_cases hQ : params.Q = 1
    · simp [generateGeometry5, hQ, Except.map]
    · cases hs : sampleX ops n sp with
      | error e => simp only [generateGeometry5, if_neg hQ, hs, Except.map]
      | ok xs =>
        cases hk : computeK1Standard ops params.L
            (computeRStandard ops ((params.P : ℚ) / 20) (1 / 1000000) 1000) with
        | error e => simp only [generateGeometry5, if_neg hQ, hs, hk, Except.map]
        | ok k1 =>
          have hx : xs.length = n := sampleX_ok_length hs
          simp only [generateGeometry5, if_neg hQ, hs, hk, Except.map]
          simp [closedLoop, surfaceUpperX, surfaceLowerX, surfaceUpperY, surfaceLowerY,
            zipWith3_length, thicknessDist, naca5Camber_fst_length, naca5Camber_snd_length, hx]
          omega
  · intro ops params n sp
    cases hs : sampleX ops n sp with
    | error e => refine ⟨?_, ?_, ?_⟩ <;> simp [generateGeometry6, hs, Except.map]
    | ok xs =>
      have hx : xs.length = n := sampleX_ok_length hs
      refine ⟨?_, ?_, ?_⟩
      · simp [generateGeometry6, hs, Except.map, closedLoop, thicknessDist, hx]
        omega
      · simp [generateGeometry6, hs, Except.map]
      · simp [generateGeometry6, hs, Except.map]
  · intro ops code chord n sp
    cases hp : parse_naca7 code chord with
    | error e => simp [generateNaca7Full, hp, Except.map]
    | ok params =>
      cases h4 : generateNaca4Full ops params.base4 chord n sp with
      | error e => simp [generateNaca7Full, hp, h4, Except.map]
      | ok r4 =>
        obtain ⟨h1, h2⟩ := generateNaca4Full_lengths h4
        simp [generateNaca7Full, hp, h4, Except.map, h1, h2]
  · intro ops code chord n sp
    cases hp : parse_naca8 code chord with
    | error e => simp [generateNaca8Full, hp, Except.map]
    | ok params =>
      cases h4 : generateNaca4Full ops params.base4 chord n sp with
      | error e => simp [generateNaca8Full, hp, h4, Except.map]
      | ok r4 =>
        obtain ⟨h1, h2⟩ := generateNaca4Full_lengths h4
        simp [generateNaca8Full, hp, h4, Except.map, h1, h2]

/-- C8 counterexample: for the accepted input `" 2412 "` the metrics record
stores the stripped code `"2412"`, which is not identical to the input. -/
theorem metrics_code_whitespace_cx :
    Except.map (fun r : Full4 => r.metrics.code)
        (generateNaca4Full opsZero ([' ', '2', '4', '1', '2', ' ']) 1 1 linStr)
      = .ok (['2', '4', '1', '2']) ∧
    (['2', '4', '1', '2'] : List Char) ≠ [' ', '2', '4', '1', '2', ' '] := by
  constructor
  · decide
  · decide

/-- C8 (amended): for every input accepted by a family's parser, the metrics
record of that family's full generation call stores under `code` the
whitespace-stripped input — identical to the input whenever the input carries
no surrounding whitespace. -/
theorem metrics_code_roundtrip_stripped :
    (∀ (ops : NumOps) (code : List Char) (chord : ℚ) (n : ℕ) (sp : List Char),
        Except.map (fun r : Full4 => r.metrics.code) (generateNaca4Full ops code chord n sp)
          = Except.map (fun _ : Full4 => pstrip code) (generateNaca4Full ops code chord n sp)) ∧
    (∀ (ops : NumOps) (code : List Char) (chord : ℚ) (n : ℕ) (sp : List Char),
        Except.map (fun r : Full5 => r.metrics.code) (generateNaca5Full ops code chord n sp)
          = Except.map (fun _ : Full5 => pstrip code) (generateNaca5Full ops code chord n sp)) ∧
    (∀ (ops : NumOps) (code : List Char) (chord : ℚ) (n : ℕ) (sp : List Char),
        Except.map (fun r : Full6 => r.metrics.code) (generateNaca6Full ops code chord n sp)
          = Except.map (fun _ : Full6 => pstrip code) (generateNaca6Full ops code chord n sp)) ∧
    (∀ (ops : NumOps) (code : List Char) (chord : ℚ) (n : ℕ) (sp : List Char),
        Except.map (fun r : Full7 => r.metrics.code) (generateNaca7Full ops code chord n sp)
          = Except.map (fun _ : Full7 => pstrip code) (generateNaca7Full ops code chord n sp)) ∧
    (∀ (ops : NumOps) (code : List Char) (chord : ℚ) (n : ℕ) (sp : List Char),
        Except.map (fun r : Full7 => r.metrics.code) (generateNaca8Full ops code chord n sp)
          = Except.map (fun _ : Full7 => pstrip code) (generateNaca8Full ops code chord n sp)) := by
  refine ⟨?_, ?_, ?_, ?_, ?_⟩
  · intro ops code chord n sp
    cases hp : parse_naca4 code chord with
    | error e => simp [generateNaca4Full, hp, Except.map]
    | ok params =>
      cases hg : generateGeometry4 ops params n sp with
      | error e => simp [generateNaca4Full, hp, hg, Except.map]
      | ok g =>
        simp [generateNaca4Full, hp, hg, Except.map, computeMetrics4, parse_naca4_ok_code hp]
  · intro ops code chord n sp
    cases hp : parse_naca5 code chord with
    | error e => simp [generateNaca5Full, hp, Except.map]
    | ok params =>
      cases hg : generateGeometry5 ops params n sp with
      | error e => simp [generateNaca5Full, hp, hg, Except.map]
      | ok g =>
        simp [generateNaca5Full, hp, hg, Except.map, computeMetrics5, parse_naca5_ok_code hp]
  · intro ops code chord n sp
    cases hp : parse_naca6 code chord with
    | error e => simp [generateNaca6Full, hp, Except.map]
    | ok params =>
      cases hg : generateGeometry6 ops params n sp with
      | error e => simp [generateNaca6Full, hp, hg, Except.map]
      | ok g =>
        simp [generateNaca6Full, hp, hg, Except.map, computeMetrics6, parse_naca6_ok_code hp]
  · intro ops code chord n sp
    cases hp : parse_naca7 code chord with
    | error e => simp [generateNaca7Full, hp, Except.map]
    | ok params =>
      cases hg : generateNaca4Full ops params.base4 chord n sp with
      | error e => simp [generateNaca7Full, hp, hg, Except.map]
      | ok r4 =>
        simp [generateNaca7Full, hp, hg, Except.map, parse_naca7_ok_code hp]
  · intro ops code chord n sp
    cases hp : parse_naca8 code chord with
    | error e => simp [generateNaca8Full, hp, Except.map]
    | ok params =>
      cases hg : generateNaca4Full ops params.base4 chord n sp with
      | error e => simp [generateNaca8Full, hp, hg, Except.map]
      | ok r4 =>
        simp [generateNaca8Full, hp, hg, Except.map, parse_naca8_ok_code hp]

/-- C9 counterexample: with chord `-1` the area metric does not equal the chord
times the chord-1 area: the shoelace formula takes an absolute value, so the
area is invariant under the sign of the chord. -/
theorem naca4_chord_scaling_cx :
    Except.map (fun r : Full4 => r.metrics.area)
        (generateNaca4Full opsZero (['0', '0', '1', '2']) (-1) 2 linStr)
      = .ok (2211 / 12500) ∧
    Except.map (fun r : Full4 => r.metrics.area)
        (generateNaca4Full opsZero (['0', '0', '1', '2']) 1 2 linStr)
      = .ok (2211 / 12500) ∧
    (2211 / 12500 : ℚ) ≠ (-1) * (2211 / 12500) := by
  have hr2 : List.range 2 = [0, 1] := by decide
  have d0 : digitVal '0' = 0 := by decide
  have d1 : digitVal '1' = 1 := by decide
  have d2 : digitVal '2' = 2 := by decide
  have hp1 : ∀ c : ℚ, parse_naca4 (['0', '0', '1', '2']) c =
      .ok { code := ['0', '0', '1', '2'], m := (digitVal '0' : ℚ) / 100
            p := (digitVal '0' : ℚ) / 10
            t := ((10 * digitVal '1' + digitVal '2' : ℕ) : ℚ) / 100, chord := c } :=
    fun c => rfl
  refine ⟨?_, ?_, by norm_num⟩ <;>
  · norm_num [generateNaca4Full, hp1, d0, d1, d2, generateGeometry4, sampleX_lin, linspace,
      hr2, thicknessDist, thicknessShape, naca4Camber, opsZero, closedLoop, surfaceUpperX,
      surfaceUpperY, surfaceLowerX, surfaceLowerY, zipWith3, computeMetrics4, shoelace,
      rollNeg1, dotL, Except.map, List.zipWith, abs_of_nonneg, abs_of_nonpos]

/-- C9 (amended): chord scaling touches only the x coordinates.  For any code,
sample count and spacing, the chord-`c` call returns the same `y_loop` as the
chord-1 call, an `x_loop` equal to the chord-1 `x_loop` scaled by `c`, and an
area metric equal to `|c|` times the chord-1 area — which is `c` times the
chord-1 area for every nonnegative chord, so the area grows linearly, not
quadratically, in the chord. -/
theorem naca4_chord_scaling (ops : NumOps) (code : List Char) (c : ℚ) (n : ℕ)
    (sp : List Char) :
    Except.map (fun r : Full4 => r.y_loop) (generateNaca4Full ops code c n sp)
      = Except.map (fun r : Full4 => r.y_loop) (generateNaca4Full ops code 1 n sp) ∧
    Except.map (fun r : Full4 => r.x_loop) (generateNaca4Full ops code c n sp)
      = Except.map (fun r : Full4 => r.x_loop.map fun v => v * c)
          (generateNaca4Full ops code 1 n sp) ∧
    Except.map (fun r : Full4 => r.metrics.area) (generateNaca4Full ops code c n sp)
      = Except.map (fun r : Full4 => |c| * r.metrics.area)
          (generateNaca4Full ops code 1 n sp) := by
  have hpar := parse_naca4_chord_map code c
  cases hp : parse_naca4 code 1 with
  | error e =>
    rw [hp] at hpar
    simp only [Except.map] at hpar
    refine ⟨?_, ?_, ?_⟩ <;> simp [generateNaca4Full, hp, hpar, Except.map]
  | ok p1 =>
    rw [hp] at hpar
    simp only [Except.map] at hpar
    have hch : p1.chord = 1 := parse_naca4_ok_chord hp
    have hp1 : ({ p1 with chord := 1 } : NACA4Params) = p1 := by rw [← hch]
    have hgeo := generateGeometry4_chord ops p1 c n sp
    rw [hp1] at hgeo
    cases hg : generateGeometry4 ops p1 n sp with
    | error e =>
      rw [hg] at hgeo
      simp only [Except.map] at hgeo
      refine ⟨?_, ?_, ?_⟩ <;> simp [generateNaca4Full, hp, hpar, hgeo, hg, Except.map]
    | ok g1 =>
      rw [hg] at hgeo
      simp only [Except.map] at hgeo
      refine ⟨?_, ?_, ?_⟩
      · simp [generateNaca4Full, hp, hpar, hgeo, hg, Except.map]
      · simp [generateNaca4Full, hp, hpar, hgeo, hg, Except.map]
      · simp only [generateNaca4Full, hp, hpar, hgeo, hg, Except.map]
        refine congrArg Except.ok ?_
        simp [computeMetrics4, shoelace_map_mul]

/-- C4: the 5-digit camber-constant solver is the fixed-point iteration
`r_new = xmc + r_old * sqrt(r_old / 3)` started from `r = 0.1` with the
tolerance `1e-6` and the cap of 1000 iterations used by `generate_geometry`: it
returns the `N`-th iterate for some `1 ≤ N ≤ 1000`, it keeps iterating exactly
while the successive differences exceed the tolerance (so it terminates as soon
as the difference is within tolerance), when it stops before the cap the last
difference is within tolerance, and when the cap is hit no convergence failure
is raised — the last iterate is returned. -/
theorem naca5_solver_iteration (ops : NumOps) (xmc : ℚ) :
    ∃ N, 1 ≤ N ∧ N ≤ 1000 ∧
      computeRStandard ops xmc (1 / 1000000) 1000 = rseq ops xmc N ∧
      (∀ m, 1 ≤ m → m < N →
        1 / 1000000 < |rseq ops xmc m - rseq ops xmc (m - 1)|) ∧
      (N < 1000 → |rseq ops xmc N - rseq ops xmc (N - 1)| ≤ 1 / 1000000) ∧
      rseq ops xmc 0 = 1 / 10 ∧
      (∀ k, rseq ops xmc (k + 1) = xmc + rseq ops xmc k * ops.sqrt (rseq ops xmc k / 3)) := by
  obtain ⟨j, hle, heq, h0, h1⟩ := crGo_spec ops xmc (1 / 1000000) 1000 0 1
  have hj : 1 ≤ j := by
    rcases Nat.eq_zero_or_pos j with h | h
    · rcases h0 h with hf | hd
      · exact absurd hf (by norm_num)
      · exact absurd hd (by norm_num)
    · exact h
  refine ⟨j, hj, hle, ?_, ?_, ?_, rfl, fun k => rfl⟩
  · have h' : computeRStandard ops xmc (1 / 1000000) 1000 = rseq ops xmc (0 + j) := heq
    simpa using h'
  · intro m hm1 hmj
    have := (h1 hj).2.1 m hm1 hmj
    simpa using this
  · intro hN
    have := (h1 hj).2.2 hN
    simpa using this

/-- Witness for C4: with a zero square root and `xmc = 0.15` the iteration
stops after two steps at the iterate `0.15`, which the theorem pins down. -/
theorem naca5_solver_iteration_witness :
    computeRStandard opsZero (3 / 20) (1 / 1000000) 1000 = 3 / 20 := by
  obtain ⟨N, h1, h2, h3, h4, h5, h6, h7⟩ := naca5_solver_iteration opsZero (3 / 20)
  have e0 : rseq opsZero (3 / 20) 0 = 1 / 10 := rfl
  have e1 : rseq opsZero (3 / 20) 1 = 3 / 20 := by
    rw [show (1 : ℕ) = 0 + 1 from rfl, h7 0, e0]
    norm_num [opsZero]
  have e2 : rseq opsZero (3 / 20) 2 = 3 / 20 := by
    rw [show (2 : ℕ) = 1 + 1 from rfl, h7 1, e1]
    norm_num [opsZero]
  have hN2 : N ≤ 2 := by
    by_contra hgt
    push_neg at hgt
    have h := h4 2 (by omega) hgt
    rw [e2, e1] at h
    norm_num at h
  have hN1 : N ≠ 1 := by
    intro h
    subst h
    have h := h5 (by omega)
    rw [e1, e0] at h
    rw [show (3 / 20 : ℚ) - 1 / 10 = 1 / 20 by norm_num] at h
    rw [abs_of_nonneg (by norm_num : (0 : ℚ) ≤ 1 / 20)] at h
    norm_num at h
  have hN : N = 2 := by omega
  rw [h3, hN, e2]

/-- C5: when the solved camber constant `r` falls outside the interval (0,1) —
which, the solver's iterate being provably positive, means `r ≥ 1`, and the
degenerate exact boundary `r = 1` (where Python would raise a division-by-zero
instead) being unattainable, `r > 1` — the standard 5-digit generation fails
with `NumericDomainError` raised at the `sqrt` evaluation inside the `k1`
computation, rather than returning a result. -/
theorem naca5_out_of_range_r_fails (ops : NumOps) (code : List Char) (chord : ℚ) (n : ℕ)
    (sp : List Char) (params : NACA5Params) (r : ℚ)
    (hpos : ∀ q : ℚ, 0 < q → 0 < ops.sqrt q)
    (hp : parse_naca5 code chord = .ok params)
    (hq : params.Q = 0)
    (hsp : sp = cosStr ∨ sp = linStr)
    (hr : computeRStandard ops ((params.P : ℚ) / 20) (1 / 1000000) 1000 = r)
    (hout : ¬(0 < r ∧ r < 1))
    (hne1 : r ≠ 1) :
    generateNaca5Full ops code chord n sp = .error .domainError := by
  have hrpos : 0 < r := by
    rw [← hr]
    obtain ⟨N, hN⟩ := computeRStandard_eq_rseq ops ((params.P : ℚ) / 20) (1 / 1000000) 1000
    rw [hN]
    exact rseq_pos ops _ hpos (by positivity) N
  have hr1 : 1 < r := by
    rcases lt_or_le r 1 with h | h
    · exact absurd ⟨hrpos, h⟩ hout
    · rcases eq_or_lt_of_le h with h' | h'
      · exact absurd h'.symm hne1
      · exact h'
  have hk : computeK1Standard ops params.L r = .error .domainError := by
    unfold computeK1Standard
    rw [if_pos]
    nlinarith [hr1]
  have hQ1 : ¬ params.Q = 1 := by rw [hq]; decide
  have hgen : generateGeometry5 ops params n sp = .error .domainError := by
    unfold generateGeometry5
    rw [if_neg hQ1]
    rcases hsp with h | h <;> subst h
    · rw [sampleX_cos, hr]
      simp [hk]
    · rw [sampleX_lin, hr]
      simp [hk]
  simp only [generateNaca5Full, hp, hgen]

/-- The parameter record `parse_naca5 "20012"` produces, in undecoded form. -/
def params20012 : NACA5Params :=
  { code := ['2', '0', '0', '1', '2'], L := digitVal '2', P := digitVal '0', Q := digitVal '0'
    t := ((10 * digitVal '1' + digitVal '2' : ℕ) : ℚ) / 100, chord := 1 }

/-- Witness for C5: under the positive kernel `opsJump` the solver lands on
`r = 2`, outside (0,1), and the 5-digit generation of `"20012"` fails with the
domain error. -/
theorem naca5_out_of_range_r_fails_witness :
    generateNaca5Full opsJump (['2', '0', '0', '1', '2']) 1 1 cosStr = .error .domainError := by
  have hr : computeRStandard opsJump ((params20012.P : ℚ) / 20) (1 / 1000000) 1000 = 2 := by
    have hP : ((params20012.P : ℚ) / 20) = 0 := by
      have h : params20012.P = 0 := by decide
      rw [h]
      norm_num
    rw [hP]
    obtain ⟨j, hle, heq, h0, h1⟩ := crGo_spec opsJump 0 (1 / 1000000) 1000 0 1
    have e0 : rseq opsJump 0 0 = 1 / 10 := rfl
    have e1 : rseq opsJump 0 1 = 2 := by
      show 0 + rseq opsJump 0 0 * opsJump.sqrt (rseq opsJump 0 0 / 3) = 2
      rw [e0]
      norm_num [opsJump]
    have e2 : rseq opsJump 0 2 = 2 := by
      show 0 + rseq opsJump 0 1 * opsJump.sqrt (rseq opsJump 0 1 / 3) = 2
      rw [e1]
      norm_num [opsJump]
    have hj1 : 1 ≤ j := by
      rcases Nat.eq_zero_or_pos j with h | h
      · rcases h0 h with hf | hd
        · exact absurd hf (by norm_num)
        · exact absurd hd (by norm_num)
      · exact h
    have hj2 : j ≤ 2 := by
      by_contra hgt
      push_neg at hgt
      have h := (h1 hj1).2.1 2 (by omega) (by omega)
      rw [show (0 + 2 : ℕ) = 2 from rfl, show (0 + 2 - 1 : ℕ) = 1 from rfl, e2, e1] at h
      norm_num at h
    have hjne : j ≠ 1 := by
      intro h
      subst h
      have h := (h1 (by omega)).2.2 (by omega)
      rw [show (0 + 1 : ℕ) = 1 from rfl, show (0 + 1 - 1 : ℕ) = 0 from rfl, e1, e0] at h
      rw [show (2 : ℚ) - 1 / 10 = 19 / 10 by norm_num] at h
      rw [abs_of_nonneg (by norm_num : (0 : ℚ) ≤ 19 / 10)] at h
      norm_num at h
    have hj : j = 2 := by omega
    have h' : computeRStandard opsJump 0 (1 / 1000000) 1000 = rseq opsJump 0 (0 + j) := heq
    rw [h', hj]
    exact e2
  exact naca5_out_of_range_r_fails opsJump ['2', '0', '0', '1', '2'] 1 1 cosStr params20012 2
    (by intro q hq; unfold opsJump; dsimp only; split_ifs <;> norm_num)
    rfl rfl (Or.inl rfl) hr (by norm_num) (by norm_num)

/-- C6: holding the other parameters fixed, the `max_thickness` metric of the
4-digit pipeline equals `max(2 yt) * chord` and factors as
`10 * max(shape) * t * chord`, linear both in the chord and in the thickness
fraction decoded from the last digit group; the half-thickness distribution
itself is `5 t` times a shape that does not depend on `t`. -/
theorem naca4_max_thickness_linear (ops : NumOps) (code : List Char) (chord : ℚ) (n : ℕ)
    (sp : List Char) (p : NACA4Params)
    (hp : parse_naca4 code chord = .ok p) (hn : 1 ≤ n) :
    Except.map (fun g : Geo => (computeMetrics4 p g).max_thickness)
        (generateGeometry4 ops p n sp)
      = Except.map (fun g : Geo => maxList (g.yt.map fun v => 2 * v) * p.chord)
          (generateGeometry4 ops p n sp) ∧
    Except.map (fun g : Geo => (computeMetrics4 p g).max_thickness)
        (generateGeometry4 ops p n sp)
      = Except.map (fun g : Geo => 10 * maxList (g.x.map (thicknessShape ops)) * p.t * p.chord)
          (generateGeometry4 ops p n sp) ∧
    Except.map (fun g : Geo => g.yt) (generateGeometry4 ops p n sp)
      = Except.map (fun g : Geo => g.x.map fun xi => 5 * p.t * thicknessShape ops xi)
          (generateGeometry4 ops p n sp) := by
  have ht : 0 ≤ p.t := parse_naca4_ok_t hp
  cases hs : sampleX ops n sp with
  | error e => refine ⟨?_, ?_, ?_⟩ <;> simp [generateGeometry4, hs, Except.map]
  | ok xs =>
    have hx : xs.length = n := sampleX_ok_length hs
    have hne : xs ≠ [] := by
      intro h
      rw [h] at hx
      simp at hx
      omega
    refine ⟨?_, ?_, ?_⟩
    · simp [generateGeometry4, hs, Except.map, computeMetrics4]
    · simp only [generateGeometry4, hs, Except.map]
      refine congrArg Except.ok ?_
      have h1 : (thicknessDist ops p.t xs).map (fun v => 2 * v)
          = (xs.map (thicknessShape ops)).map fun v => (10 * p.t) * v := by
        unfold thicknessDist
        rw [List.map_map, List.map_map]
        exact List.map_congr_left fun a _ => by
          simp only [Function.comp_apply]
          ring
      have hne2 : xs.map (thicknessShape ops) ≠ [] := by
        simpa using hne
      simp only [computeMetrics4]
      rw [h1, maxList_map_mul (by positivity : (0 : ℚ) ≤ 10 * p.t) hne2]
      ring
    · simp [generateGeometry4, hs, Except.map, thicknessDist]

/-- The parameter record `parse_naca4 "0012"` produces, in undecoded form. -/
def params0012 : NACA4Params :=
  { code := ['0', '0', '1', '2'], m := (digitVal '0' : ℚ) / 100, p := (digitVal '0' : ℚ) / 10
    t := ((10 * digitVal '1' + digitVal '2' : ℕ) : ℚ) / 100, chord := 1 }

/-- Witness for C6 at the code `"0012"` with one sample point. -/
theorem naca4_max_thickness_linear_witness :
    Except.map (fun g : Geo => (computeMetrics4 params0012 g).max_thickness)
        (generateGeometry4 opsZero params0012 1 linStr)
      = Except.map (fun g : Geo => maxList (g.yt.map fun v => 2 * v) * params0012.chord)
          (generateGeometry4 opsZero params0012 1 linStr) ∧
    Except.map (fun g : Geo => (computeMetrics4 params0012 g).max_thickness)
        (generateGeometry4 opsZero params0012 1 linStr)
      = Except.map (fun g : Geo =>
            10 * maxList (g.x.map (thicknessShape opsZero)) * params0012.t * params0012.chord)
          (generateGeometry4 opsZero params0012 1 linStr) ∧
    Except.map (fun g : Geo => g.yt) (generateGeometry4 opsZero params0012 1 linStr)
      = Except.map (fun g : Geo => g.x.map fun xi => 5 * params0012.t * thicknessShape opsZero xi)
          (generateGeometry4 opsZero params0012 1 linStr) :=
  naca4_max_thickness_linear opsZero ['0', '0', '1', '2'] 1 1 linStr params0012 rfl (by decide)

/-- C7: for every valid 4-digit code whose second digit is `0`, the decoded
camber position is `p = 0`, the camber ordinate and camber slope are exactly
zero at every sample point (for any sample list, sample count and spacing), and
the generated camber line is the all-zero list. -/
theorem naca4_symmetric_zero_camber (ops : NumOps) (code : List Char) (chord : ℚ) (n : ℕ)
    (sp : List Char) (p : NACA4Params)
    (hp : parse_naca4 code chord = .ok p)
    (h0 : (pstrip code).getD 1 ' ' = '0') :
    p.p = 0 ∧
    (∀ xs : List ℚ, naca4Camber p.m p.p xs
        = (List.replicate xs.length 0, List.replicate xs.length 0)) ∧
    Except.map (fun g : Geo => g.yc) (generateGeometry4 ops p n sp)
      = Except.map (fun _ : Geo => List.replicate n 0) (generateGeometry4 ops p n sp) := by
  have hpp : p.p = 0 := by
    unfold parse_naca4 naca4Decode at hp
    split_ifs at hp
    cases hp
    have hd : digitVal '0' = 0 := by decide
    show (digitVal ((pstrip code).getD 1 ' ') : ℚ) / 10 = 0
    rw [h0, hd]
    norm_num
  refine ⟨hpp, ?_, ?_⟩
  · intro xs
    unfold naca4Camber
    rw [if_pos hpp]
  · cases hs : sampleX ops n sp with
    | error e => simp [generateGeometry4, hs, Except.map]
    | ok xs =>
      have hx : xs.length = n := sampleX_ok_length hs
      simp [generateGeometry4, hs, Except.map, naca4Camber, hpp, hx]

/-- Witness for C7 at the code `"0012"`. -/
theorem naca4_symmetric_zero_camber_witness :
    params0012.p = 0 ∧
    (∀ xs : List ℚ, naca4Camber params0012.m params0012.p xs
        = (List.replicate xs.length 0, List.replicate xs.length 0)) ∧
    Except.map (fun g : Geo => g.yc) (generateGeometry4 opsZero params0012 1 linStr)
      = Except.map (fun _ : Geo => List.replicate 1 0)
          (generateGeometry4 opsZero params0012 1 linStr) :=
  naca4_symmetric_zero_camber opsZero ['0', '0', '1', '2'] 1 1 linStr params0012 rfl (by decide)

end WingsCAD
